import Mathlib

/-!
# Verification of the JobExecutor job-lifecycle orchestration core

Shallow embedding of the job-lifecycle orchestration engine of the
EnzymeFunctionInitiative/JobExecutor repository (package `job_exec`):

* `job_exec/constants.py` — the `Status` bit-flag type (`Flag` with five
  auto bits, four named unions, `__str__`, `get_flag`);
* `job_exec/dataStrategies/baseStrategy.py` — the in-memory dict-of-dicts
  job store (`DictOfDictStrategy`: `load_data`, `fetch_jobs`, `update_job`);
* `job_exec/dataStrategies/sqlStrategy.py` — the relational job store
  (`SQLStrategy.fetch_jobs`, `SQLStrategy.update_job`);
* `job_exec/taskOperator.py` — the status-driven dispatcher
  (`Operator.prepare`, `Operator.execute`);
* `job_exec/taskStrategies/start.py` — the `Start` lifecycle handler
  (steps 7–9: transport, submission, updates collection);
* `job_exec/taskStrategies/check_status.py` — the `CheckStatus` handler;
* `job_exec/taskStrategies/transportationStrategies/localTransportation.py`
  — the local-move `Transport.run`;
* `job_exec/executor.py` — the controller loop.

Python dicts are modelled as insertion-ordered association lists, Python
exceptions as explicit `exc`/`Except.error` results, and external
collaborators (scheduler submission/query clients, file system, template
renderer) as explicit outcome parameters threaded into the handler
embeddings.
-/

/-- Attribute values stored in a job record: a status flag, a string,
a number, or Python `None`.  (`timeStarted` timestamps are represented as
opaque strings.) -/
inductive Val where
  | vstatus (s : Nat)
  | vstr (s : String)
  | vnat (n : Nat)
  | vnone
deriving DecidableEq, Repr

/-! ## Python dict model

A Python dict is an insertion-ordered association list with unique keys.
`dset` models `d[k] = v` (overwrite in place if the key exists, append
otherwise); `dupdate` models `d.update(other)`; `dlookup` models `d[k]`
as an `Option`. -/

/-- Lookup `d[k]` as an option (first matching key). -/
def dlookup {α : Type} : List (String × α) → String → Option α
  | [], _ => none
  | (k, v) :: rest, key => if key = k then some v else dlookup rest key

/-- Assignment `d[k] = v`: overwrite the entry in place if the key is present
(first occurrence; dict keys are unique), append the pair otherwise
(Python dict insertion-order semantics). -/
def dset {α : Type} : List (String × α) → String → α → List (String × α)
  | [], k, v => [(k, v)]
  | (k₁, v₁) :: rest, k, v =>
      if k₁ = k then (k, v) :: rest else (k₁, v₁) :: dset rest k v

/-- Update `d.update(upd)`: apply every pair of `upd`, in order. -/
def dupdate {α : Type} (d upd : List (String × α)) : List (String × α) :=
  upd.foldl (fun r kv => dset r kv.1 kv.2) d

/-! ## `job_exec/constants.py` — the `Status` flag type

`Status(Flag)` with `auto()` members NEW=1, RUNNING=2, FINISHED=4,
FAILED=8, ARCHIVED=16 and the four combination members.  Python `Flag`
membership `a in b` tests `a.value & b.value == a.value`; `__str__`
returns `self.name.lower()`; `get_flag` does `getattr(cls, status.upper())`
for string input, re-raising `AttributeError` for unknown names. -/

structure Status where
  val : Nat
deriving DecidableEq, Repr

namespace Status

def NEW : Status := ⟨1⟩
def RUNNING : Status := ⟨2⟩
def FINISHED : Status := ⟨4⟩
def FAILED : Status := ⟨8⟩
def ARCHIVED : Status := ⟨16⟩
/-- Union `INCOMPLETE = NEW | RUNNING`. -/
def INCOMPLETE : Status := ⟨NEW.val ||| RUNNING.val⟩
/-- Union `COMPLETED = FINISHED | FAILED | ARCHIVED`. -/
def COMPLETED : Status := ⟨FINISHED.val ||| FAILED.val ||| ARCHIVED.val⟩
/-- Union `CURRENT = NEW | RUNNING | FINISHED | FAILED`. -/
def CURRENT : Status := ⟨NEW.val ||| RUNNING.val ||| FINISHED.val ||| FAILED.val⟩
/-- Union `ALL = NEW | RUNNING | FINISHED | FAILED | ARCHIVED`. -/
def ALL : Status := ⟨NEW.val ||| RUNNING.val ||| FINISHED.val ||| FAILED.val ||| ARCHIVED.val⟩

/-- Python `Flag.__contains__`: `s in u` iff `s.value & u.value == s.value`. -/
def containsB (s u : Status) : Bool := s.val &&& u.val == s.val

/-- Iterating over the `Status` class yields exactly the five canonical
(single-bit) members, in definition order. -/
def baseMembers : List Status := [NEW, RUNNING, FINISHED, FAILED, ARCHIVED]

/-- The named members of the class reachable via `getattr(cls, NAME)`:
the five base values and the four flag combinations. -/
def namedMember : String → Option Status
  | "NEW" => some NEW
  | "RUNNING" => some RUNNING
  | "FINISHED" => some FINISHED
  | "FAILED" => some FAILED
  | "ARCHIVED" => some ARCHIVED
  | "INCOMPLETE" => some INCOMPLETE
  | "COMPLETED" => some COMPLETED
  | "CURRENT" => some CURRENT
  | "ALL" => some ALL
  | _ => none

/-- Serialization `Status.__str__`: `self.name.lower()` — the lowercase name of a named
member (`none` models the `AttributeError` on an unnamed combination). -/
def strName (s : Status) : Option String :=
  if s = NEW then some "new"
  else if s = RUNNING then some "running"
  else if s = FINISHED then some "finished"
  else if s = FAILED then some "failed"
  else if s = ARCHIVED then some "archived"
  else if s = INCOMPLETE then some "incomplete"
  else if s = COMPLETED then some "completed"
  else if s = CURRENT then some "current"
  else if s = ALL then some "all"
  else none

/-- Serialization `flag.__str__()` on a member known to be named (total helper used where
the source only ever applies `__str__` to named members). -/
def strNameD (s : Status) : String := (strName s).getD ""

/-- Python `str.upper()`: uppercase every character (the status names are
ASCII, where `Char.toUpper` agrees with Python's `upper`). -/
def pyUpper (s : String) : String := ⟨s.data.map Char.toUpper⟩

/-- Parsing: `Status.get_flag` on a string argument does
`getattr(cls, status.upper())`, with `AttributeError` on an unknown name
caught, printed and re-raised (a typed error). -/
def get_flag (status : String) : Except String Status :=
  match namedMember (pyUpper status) with
  | some f => Except.ok f
  | none => Except.error "AttributeError"

end Status

/-! ## Job records and stores

`jobModels/job_dummy.py` defines the plain `Job` object built by the
dict-of-dicts store: it requires `id` and `status` keyword arguments and
takes all attributes from the row.  `jobModels/job_plain.py` additionally
declares the updatable-attribute set
`frozenset(["status", "timeStarted", "timeCompleted"])`. -/

/-- A row of the dict-of-dicts store (one job's attribute map). -/
abbrev Row := List (String × Val)

/-- The dict-of-dicts store: primary keys mapping to attribute maps. -/
abbrev Store := List (String × Row)

/-- An updates map returned by a lifecycle handler
(string keys to values, in insertion order). -/
abbrev Updates := List (String × Val)

/-- The `Job` object of `jobModels/job_dummy.py`, as seen by the core:
its primary key, its parsed status, and the attribute map it was built
from.  Construction fails (`ValueError` / `TypeError`) when the row has
no usable status value. -/
structure DJob where
  id : String
  status : Status
  attrs : Row
deriving DecidableEq, Repr

/-- The status value of a row, when present and well-typed. -/
def rowStatus (row : Row) : Option Status :=
  match dlookup row "status" with
  | some (Val.vstatus n) => some ⟨n⟩
  | _ => none

/-- Constructor `Job(**subdict)`: requires a usable `status` entry (the `id` entry has
just been written by `fetch_jobs`); `none` models the exception raised
otherwise (`ValueError` in the constructor, or the `TypeError` from the
flag-membership test on a non-flag value). -/
def mkJob (key : String) (row : Row) : Option DJob :=
  match rowStatus row with
  | some s => some ⟨key, s, row⟩
  | none => none

/-- From `jobModels/job_plain.py`: `_updatable_attrs`, the only
updatable-attribute set declared anywhere in the repository. -/
def plain_updatable_attrs : List String := ["status", "timeStarted", "timeCompleted"]

/-! ## `dataStrategies/baseStrategy.py` — `DictOfDictStrategy` -/

/-- Embedding of `DictOfDictStrategy.load_data`: the seeded fake dataset. -/
def load_data : Store :=
  [ ("1", [("status", Val.vstatus Status.FINISHED.val)]),
    ("2", [("status", Val.vstatus Status.RUNNING.val)]),
    ("3", [("status", Val.vstatus Status.RUNNING.val)]),
    ("4", [("status", Val.vstatus Status.NEW.val)]),
    ("5", [("status", Val.vstatus Status.NEW.val)]),
    ("6", [("status", Val.vstatus Status.FAILED.val)]),
    ("7", [("status", Val.vstatus Status.ARCHIVED.val)]) ]

/-- Embedding of `DictOfDictStrategy.fetch_jobs`, fully iterated: for each `(key,
subdict)` of `self.data` in order, execute `subdict.update({"id": key})`
(mutating the stored row), build `Job(**subdict)`, and yield it when
`temp_job.status in status`.  Returns the mutated store together with the
yielded jobs; `Except.error` models the exception that aborts iteration
on a row with no usable status. -/
def fetch_jobs (status : Status) : Store → Except String (Store × List DJob)
  | [] => Except.ok ([], [])
  | (key, row) :: rest =>
    let row' := dset row "id" (Val.vstr key)
    match mkJob key row' with
    | none => Except.error "ValueError: Missing required fields: id and status"
    | some j =>
      match fetch_jobs status rest with
      | Except.error e => Except.error e
      | Except.ok (rest', js) =>
        Except.ok ((key, row') :: rest',
          if Status.containsB j.status status then j :: js else js)

/-- Embedding of `DictOfDictStrategy.update_job`:
`self.data[job_obj.id].update(update_dict)` — applies **every** pair of
the updates map to the stored row (no updatable-attribute filtering);
`KeyError` when the primary key is absent. -/
def dict_update_job (store : Store) (jobId : String) (upd : Updates) :
    Except String Store :=
  match dlookup store jobId with
  | none => Except.error "KeyError"
  | some _ =>
    Except.ok (store.map (fun kr => if kr.1 = jobId then (kr.1, dupdate kr.2 upd) else kr))

/-! ## `dataStrategies/sqlStrategy.py` — `SQLStrategy` -/

/-- One row of the relational `Job` table as materialized by the ORM:
a primary key and an attribute map whose `status` attribute is a
`Status` flag (the `FlagEnumType` column stores it as the lowercase
name string and converts on load/store). -/
structure SqlRow where
  job_id : Nat
  status : Status
  attrs : Row
deriving DecidableEq, Repr

/-- The list `[flag.__str__() for flag in Status if flag in status]`: the
lowercase names of the base members contained in the (possibly combined)
filter flag. -/
def status_strings (status : Status) : List String :=
  (Status.baseMembers.filter (fun f => Status.containsB f status)).map Status.strNameD

/-- Embedding of `SQLStrategy.fetch_jobs`: raise when no session is open, otherwise
`SELECT * FROM Job WHERE status IN status_strings` — keep exactly the
rows whose stored status string is in the computed list. -/
def sql_fetch_jobs (connected : Bool) (table : List SqlRow) (status : Status) :
    Except String (List SqlRow) :=
  if ¬ connected then Except.error "Not connected to the database"
  else Except.ok
    (table.filter (fun r => (status_strings status).contains (Status.strNameD r.status)))

/-- The attribute writes of `SQLStrategy.update_job`: `setattr` each pair
whose key is in `job_obj.get_updatable_attrs()`, skipping (`continue`)
every other key.  The updatable-attribute set is supplied by the job
kind and passed in as a parameter. -/
def sql_apply_updates (updatable : List String) (row : Row) (upd : Updates) : Row :=
  upd.foldl (fun r kv => if kv.1 ∈ updatable then dset r kv.1 kv.2 else r) row

/-- Embedding of `SQLStrategy.update_job`: raise when no session is open; an empty
updates map is a printed no-op; otherwise apply the filtered writes and
commit. -/
def sql_update_job (connected : Bool) (updatable : List String) (row : Row)
    (upd : Updates) : Except String Row :=
  if ¬ connected then Except.error "Not connected to the database"
  else if upd.isEmpty then Except.ok row
  else Except.ok (sql_apply_updates updatable row upd)

/-! ## `taskOperator.py` — the status-driven dispatcher -/

/-- Result of running a Python callable: a normal return value or a
raised exception that propagates to the caller. -/
inductive PyResult (α : Type) where
  | ok (a : α)
  | exc (e : String)
deriving DecidableEq, Repr

/-- The two handler roles the dispatcher can select
(`self.StartStrategy` / `self.CheckStatusStrategy`). -/
inductive Role where
  | start
  | checkStatus
deriving DecidableEq, Repr

/-- Embedding of `Operator.prepare`: `NEW` selects the Start strategy, `RUNNING` the
CheckStatus strategy, any other status raises
`ValueError("Unknown job status type.")`. -/
def prepare (job_status : Status) : Except String Role :=
  if job_status = Status.NEW then Except.ok Role.start
  else if job_status = Status.RUNNING then Except.ok Role.checkStatus
  else Except.error "ValueError: Unknown job status type."

/-- Embedding of `Operator.execute`: run `prepare(job.status)` and then the selected
strategy's `execute` on the job; a `prepare` failure propagates as a
raised exception.  The concrete Start/CheckStatus implementations are
passed in as functions. -/
def operator_execute (startH checkH : DJob → PyResult (Nat × Updates))
    (job : DJob) : PyResult (Nat × Updates) :=
  match prepare job.status with
  | Except.ok Role.start => startH job
  | Except.ok Role.checkStatus => checkH job
  | Except.error e => PyResult.exc e

/-! ## `taskStrategies/start.py` — the Start handler

`Start.execute` steps 1–6 (config lookups, directory creation, parameter
and batch-file rendering) call external collaborators; their combined
outcome is modelled by `prepExc`.  Steps 7–9 are embedded directly:

* step 7: when staging and execution directories differ, run the
  transport strategy; on a non-zero retcode, `raise results[0]`;
* step 8: run the submission strategy, giving `(retcode, results)`;
  `schedulerJobId` is assigned **only** when `len(results) > 1`;
* step 9: build the updates dict from `retcode`; then `if schedulerJobId:`
  raises `UnboundLocalError` whenever step 8 did not assign it. -/

/-- Collaborator outcomes for one `Start.execute` run. -/
structure StartEnv where
  /-- a raise in steps 1–6 (config/transport-strategy resolution,
  directory creation, parameter/batch rendering), if any -/
  prepExc : Option String
  /-- `from_destination != to_destination` -/
  transportNeeded : Bool
  /-- `(retcode, results)` from `transport_strategy.run(...)` -/
  transportRun : Nat × List String
  /-- `(retcode, results)` from `execution_strategy.run(to_destination)` -/
  submitRun : Nat × List String
deriving Repr

/-- Embedding of `Start.execute` (steps 7–9 of `taskStrategies/start.py`). -/
def start_execute (env : StartEnv) : PyResult (Nat × Updates) :=
  match env.prepExc with
  | some e => PyResult.exc e
  | none =>
    if env.transportNeeded ∧ env.transportRun.1 ≠ 0 then
      PyResult.exc "Transportation failed"
    else
      let rc := env.submitRun.1
      let updates_dict : Updates :=
        if rc = 0 then
          [("status", Val.vstatus Status.RUNNING.val), ("timeStarted", Val.vstr "now")]
        else
          [("status", Val.vstatus Status.FAILED.val)]
      match env.submitRun.2 with
      | r1 :: _ :: _ =>
        PyResult.ok (rc,
          if r1 ≠ "" then updates_dict ++ [("schedulerJobId", Val.vstr r1)]
          else updates_dict)
      | _ => PyResult.exc "UnboundLocalError: schedulerJobId"

/-! ## `taskStrategies/check_status.py` — the CheckStatus handler -/

/-- How one `CheckStatus.execute` call ends: a returned
`(retcode, updates)` pair, a raised exception, or the implicit `None`
return of a Python function that falls off the end of its body. -/
inductive CSOutcome where
  | ret (rc : Nat) (upd : Updates)
  | exc (e : String)
  | noneReturn
deriving DecidableEq, Repr

/-- A `CheckStatus.execute` run together with the externally visible
effects it performed. -/
structure CSResult where
  outcome : CSOutcome
  /-- `check_status_strategy.run(_id)` was invoked -/
  queriedScheduler : Bool
  /-- `transport_strategy.run(...)` was invoked -/
  ranTransport : Bool
deriving DecidableEq, Repr

/-- Collaborator outcomes for one `CheckStatus.execute` run. -/
structure CheckEnv where
  /-- the config resolves a transport strategy module -/
  transportDefined : Bool
  /-- the config resolves a check-status strategy module -/
  checkDefined : Bool
  /-- `(retcode, results)` from `check_status_strategy.run(_id)` -/
  checkRun : Nat × List String
  /-- the config defines `transport_dict.local_destination` -/
  destinationDefined : Bool
  /-- `from_destination != to_destination` in the finished branch -/
  transportNeeded : Bool
  /-- retcode from `transport_strategy.run(...)` in the finished branch -/
  transportRet : Nat
  /-- `job_obj.get_output_files()` -/
  outputFiles : List String
deriving Repr

/-- Python truthiness of an attribute value (`if not _id:`). -/
def truthy : Val → Bool
  | Val.vstatus n => n ≠ 0
  | Val.vstr s => s ≠ ""
  | Val.vnat n => n ≠ 0
  | Val.vnone => false

/-- Table `slurm_job_states` from `taskStrategies/utilities.py`. -/
def slurm_job_states_finished : List String := ["COMPLETED"]

/-- Embedding of `CheckStatus.execute` of `taskStrategies/check_status.py`.
`schedId` is `job_obj.schedulerJobId`.  Steps:
1. `if not _id: return 1, {"status": Status.FAILED}`;
2. resolve the transport and check-status strategies (raise if missing);
3. `check_status_strategy.run(_id)`; raise on a non-zero retcode;
4. `job_status = results[0]` (IndexError on an empty result), then the
   state mapping: `"pending"`/`"running"` → still running, `"failed"` →
   failed, membership in `job_states["finished"] = ["COMPLETED"]` →
   finished (with transport and a results update whose
   `",".join(list of Path)` raises `TypeError` on a non-empty file
   list); any other state falls off the end of the function, which in
   Python returns `None`. -/
def check_status_execute (schedId : Val) (env : CheckEnv) : CSResult :=
  if ¬ truthy schedId then
    ⟨CSOutcome.ret 1 [("status", Val.vstatus Status.FAILED.val)], false, false⟩
  else if ¬ env.transportDefined then
    ⟨CSOutcome.exc "RuntimeError: No transportation strategy defined.", false, false⟩
  else if ¬ env.checkDefined then
    ⟨CSOutcome.exc "RuntimeError: No check status strategy defined.", false, false⟩
  else if env.checkRun.1 ≠ 0 then
    ⟨CSOutcome.exc "CheckStatus task failed", true, false⟩
  else
    match env.checkRun.2 with
    | [] => ⟨CSOutcome.exc "IndexError", true, false⟩
    | job_status :: _ =>
      if job_status = "pending" ∨ job_status = "running" then
        ⟨CSOutcome.ret 0 [("status", Val.vstatus Status.RUNNING.val)], true, false⟩
      else if job_status = "failed" then
        ⟨CSOutcome.ret 0 [("status", Val.vstatus Status.FAILED.val)], true, false⟩
      else if job_status ∈ slurm_job_states_finished then
        if ¬ env.destinationDefined then
          ⟨CSOutcome.exc "RuntimeError", true, false⟩
        else if env.transportNeeded ∧ env.transportRet ≠ 0 then
          ⟨CSOutcome.exc "Transportation failed", true, true⟩
        else if env.outputFiles ≠ [] then
          -- `",".join([to_destination / file for file in file_list])`
          -- joins Path objects and raises TypeError
          ⟨CSOutcome.exc "TypeError: sequence item 0: expected str instance",
            true, env.transportNeeded⟩
        else
          ⟨CSOutcome.ret 0 [("status", Val.vstatus Status.FINISHED.val),
              ("results", Val.vstr "")], true, env.transportNeeded⟩
      else
        ⟨CSOutcome.noneReturn, true, false⟩

/-- From `checkStatusStrategies/noCheckStatus.py`, `CheckStatus.run`:
`return 0, "finished"` (the only check-status backend in the
repository). -/
def noCheckStatus_run : Nat × String := (0, "finished")

/-! ## `transportationStrategies/localTransportation.py` — local move

Paths are modelled as component lists (an absolute path starts with the
empty root component), and the file system as the list of paths of the
files that currently exist.  `Path.rename` removes the source path and
adds the destination path. -/

/-- A file-system path as a list of components. -/
abbrev FPath := List String

/-- Test `from_destination in file.parents`: the directory is a proper prefix
of the file path. -/
def inParents (dir file : FPath) : Bool := dir.isPrefixOf file && dir ≠ file

/-- Resolution step `if not from_destination in file.parents: file = from_destination / file`. -/
def resolveFile (from_dest : FPath) (file : FPath) : FPath :=
  if inParents from_dest file then file else from_dest ++ file

/-- Accessor `file.name`: the last path component. -/
def pathName (p : FPath) : String := p.getLastD ""

/-- Embedding of `Transport.run` of `localTransportation.py`, one file at a time:
resolve the file against `from_destination`, and if it exists rename it
into `to_destination` (accumulating the new path); on the first file
that does not exist, return retcode 1 with a `RuntimeError` naming it —
files already renamed stay renamed.  Returns the result pair together
with the final file-system contents. -/
def transport_run (fr t : FPath) :
    List FPath → List FPath → List FPath → (Nat × Except FPath (List FPath)) × List FPath
  | [], acc, world => ((0, Except.ok acc.reverse), world)
  | f :: rest, acc, world =>
    let file := resolveFile fr f
    if world.contains file then
      let newFile := t ++ [pathName file]
      transport_run fr t rest (newFile :: acc) (newFile :: world.erase file)
    else
      ((1, Except.error file), world)

/-! ## `executor.py` — the controller loop

```
with DataHandler(config) as data_handler:
    jobs = data_handler.get_jobs(Status.INCOMPLETE)
    for job in jobs:
        retcode, updates = task_operator.execute(job, config)
        data_handler.update_job(job, updates)
```

There is no `try`/`except` around the body: an exception raised by a
handler (or by `update_job`) propagates and ends the run, leaving the
store as already mutated.  The loop does not branch on `retcode`. -/

/-- The `for job in jobs:` body over an already-fetched job list: run the
handler, and on a normal return write its updates through
`DictOfDictStrategy.update_job`; a raised exception stops the loop.
Returns the final store and the escaped exception, if any. -/
def controllerLoop (handler : DJob → PyResult (Nat × Updates)) :
    List DJob → Store → Store × Option String
  | [], s => (s, none)
  | j :: rest, s =>
    match handler j with
    | PyResult.exc e => (s, some e)
    | PyResult.ok (_, upd) =>
      match dict_update_job s j.id upd with
      | Except.error e => (s, some e)
      | Except.ok s' => controllerLoop handler rest s'

/-- One controller run against the dict-of-dicts store: fetch the
`INCOMPLETE` jobs (mutating the store) and process each fetched job in
order. -/
def controllerRun (handler : DJob → PyResult (Nat × Updates)) (store : Store) :
    Store × Option String :=
  match fetch_jobs Status.INCOMPLETE store with
  | Except.error e => (store, some e)
  | Except.ok (store', jobs) => controllerLoop handler jobs store'

/-- The status recorded in the store for a given job id. -/
def storeStatus (store : Store) (jobId : String) : Option Status :=
  match dlookup store jobId with
  | some row => rowStatus row
  | none => none

/-- Every row of the store has a usable status value (the spec's data
model: every persisted job has exactly one base status at rest). -/
def wfStore (store : Store) : Prop := ∀ kr ∈ store, (rowStatus kr.2).isSome

instance (store : Store) : Decidable (wfStore store) := by
  unfold wfStore; infer_instance

/-- The store after a full iteration of `fetch_jobs`: every row has
received the `"id": key` entry. -/
def mutatedStore (store : Store) : Store :=
  store.map (fun kr => (kr.1, dset kr.2 "id" (Val.vstr kr.1)))

/-- The jobs yielded by a full iteration of `fetch_jobs`. -/
def selectedJobs (status : Status) (store : Store) : List DJob :=
  store.filterMap (fun kr =>
    match rowStatus kr.2 with
    | some s =>
      if Status.containsB s status then
        some ⟨kr.1, s, dset kr.2 "id" (Val.vstr kr.1)⟩
      else none
    | none => none)

/-! ## Spec-side comparison definitions and concrete scenario inputs

The following definitions are written from the specification's words (not
from the source) and serve as the comparison side of the refinement-style
claims, together with the concrete stores/environments used by the
scenario claims. -/

/-- Spec side of the `fetchJobs` contract: "returns every job whose
current status is a member of `statusFilter` (per `contains`)" — the
`(id, status)` projection of the stored jobs selected by membership. -/
def spec_selected_ids (status : Status) (store : Store) : List (String × Status) :=
  store.filterMap (fun kr =>
    match rowStatus kr.2 with
    | some s => if Status.containsB s status then some (kr.1, s) else none
    | none => none)

/-- Spec side of the union constants: each defined union together with
the base components OR-ed into it ("INCOMPLETE = NEW|RUNNING;
COMPLETED = FINISHED|FAILED|ARCHIVED; CURRENT = NEW|RUNNING|FINISHED|FAILED;
ALL = all five"). -/
def status_union_components : List (Status × List Status) :=
  [ (Status.INCOMPLETE, [Status.NEW, Status.RUNNING]),
    (Status.COMPLETED, [Status.FINISHED, Status.FAILED, Status.ARCHIVED]),
    (Status.CURRENT, [Status.NEW, Status.RUNNING, Status.FINISHED, Status.FAILED]),
    (Status.ALL, [Status.NEW, Status.RUNNING, Status.FINISHED, Status.FAILED,
      Status.ARCHIVED]) ]

/-- The five base status names (in some case variants) with the flags
they parse to. -/
def base_name_table : List (String × Status) :=
  [ ("new", Status.NEW), ("New", Status.NEW), ("NEW", Status.NEW),
    ("running", Status.RUNNING), ("Running", Status.RUNNING),
    ("finished", Status.FINISHED), ("FINISHED", Status.FINISHED),
    ("failed", Status.FAILED), ("archived", Status.ARCHIVED) ]

/-- The four union names (in some case variants) with the flags they
parse to. -/
def union_name_table : List (String × Status) :=
  [ ("incomplete", Status.INCOMPLETE), ("Incomplete", Status.INCOMPLETE),
    ("INCOMPLETE", Status.INCOMPLETE),
    ("completed", Status.COMPLETED), ("current", Status.CURRENT),
    ("all", Status.ALL), ("All", Status.ALL) ]

/-- A store seeded with one job of each of the five base statuses
(the C4 scenario). -/
def five_status_store : Store :=
  [ ("1", [("status", Val.vstatus Status.NEW.val)]),
    ("2", [("status", Val.vstatus Status.RUNNING.val)]),
    ("3", [("status", Val.vstatus Status.FINISHED.val)]),
    ("4", [("status", Val.vstatus Status.FAILED.val)]),
    ("5", [("status", Val.vstatus Status.ARCHIVED.val)]) ]

/-- A store holding two `NEW` jobs (the C1 scenario). -/
def two_new_store : Store :=
  [ ("1", [("status", Val.vstatus Status.NEW.val)]),
    ("2", [("status", Val.vstatus Status.NEW.val)]) ]

/-- A `Start` collaborator environment whose submission step fails the
way the repository's own `run_command` convention reports failures:
`(retcode, (errorObject,))` — a one-element result tuple. -/
def failing_submit_env : StartEnv :=
  { prepExc := none, transportNeeded := false, transportRun := (0, []),
    submitRun := (1, ["SubprocessError"]) }

/-- A `Start` collaborator environment whose submission succeeds,
returning `(0, (stdout, stderr))` with the scheduler id in the stdout
slot. -/
def ok_submit_env : StartEnv :=
  { prepExc := none, transportNeeded := false, transportRun := (0, []),
    submitRun := (0, ["4242", ""]) }

/-- A one-job store whose job carries a non-updatable `results`
attribute (C2 scenario). -/
def c2_row : Row :=
  [("status", Val.vstatus Status.NEW.val), ("results", Val.vstr "old")]

/-- The C2 scenario store holding `c2_row` under primary key `"1"`. -/
def c2_store : Store := [("1", c2_row)]

/-- A C2 updates map mixing an updatable key (`status`) with a
non-updatable one (`results`, not in `_updatable_attrs`). -/
def c2_updates : Updates :=
  [("status", Val.vstatus Status.RUNNING.val), ("results", Val.vstr "clobbered")]

/-- A relational table seeded with one job of each base status (C4). -/
def sql_five_table : List SqlRow :=
  [ ⟨1, Status.NEW, []⟩, ⟨2, Status.RUNNING, []⟩, ⟨3, Status.FINISHED, []⟩,
    ⟨4, Status.FAILED, []⟩, ⟨5, Status.ARCHIVED, []⟩ ]

/-- C5 scenario file system: only `/src/a.txt` exists. -/
def c5_world : List FPath := [["", "src", "a.txt"]]

/-- The C1 counterexample handler: the dispatcher with a `Start`
implementation whose submission fails for job `"1"` in the repository's
own failure convention and succeeds for every other job. -/
def c1_fail_handler : DJob → PyResult (Nat × Updates) :=
  operator_execute
    (fun j => start_execute (if j.id = "1" then failing_submit_env else ok_submit_env))
    (fun _ => PyResult.ok (0, []))

/-- The C1 amended-scenario handler: job `"1"`'s submission fails but
its result tuple still carries two entries (so `Start.execute` returns
`(1, {status: FAILED, ...})` instead of raising), and every other job's
submission succeeds with scheduler id `sid`. -/
def c1_mixed_handler (e1 e2 sid : String)
    (checkH : DJob → PyResult (Nat × Updates)) : DJob → PyResult (Nat × Updates) :=
  operator_execute
    (fun j => start_execute
      (if j.id = "1" then
        { prepExc := none, transportNeeded := false, transportRun := (0, []),
          submitRun := (1, [e1, e2]) }
       else
        { prepExc := none, transportNeeded := false, transportRun := (0, []),
          submitRun := (0, [sid, ""]) }))
    checkH

/-! ## Dictionary lemmas -/

/-- The key law of `dset`: a lookup after `d[k] = v` sees `v` at `k` and
is unchanged at every other key. -/
theorem dlookup_dset {α : Type} (r : List (String × α)) (k k' : String) (v : α) :
    dlookup (dset r k v) k' = if k' = k then some v else dlookup r k' := by
  induction r with
  | nil => simp [dset, dlookup]
  | cons kv rest ih =>
    obtain ⟨k₁, v₁⟩ := kv
    by_cases h1 : k₁ = k
    · subst h1
      by_cases h2 : k' = k₁ <;> simp [dset, dlookup, h2]
    · by_cases h2 : k' = k₁
      · subst h2
        simp [dset, dlookup, h1, fun h : k' = k => h1 (h ▸ rfl)]
      · simp [dset, dlookup, h1, h2, ih]

/-- Keys of `r` are preserved by `dset` at a key already present. -/
theorem dlookup_dset_ne {α : Type} (r : List (String × α)) (k k' : String)
    (v : α) (h : k' ≠ k) : dlookup (dset r k v) k' = dlookup r k' := by
  rw [dlookup_dset, if_neg h]

/-- A fold of filtered `setattr`s never touches a key outside the
updatable set (`SQLStrategy.update_job`'s skip-`continue` loop). -/
theorem foldl_filtered_frame (updatable : List String) (upd : Updates)
    (row : Row) (k : String) (hk : k ∉ updatable) :
    dlookup (upd.foldl (fun r kv => if kv.1 ∈ updatable then dset r kv.1 kv.2 else r) row) k
      = dlookup row k := by
  induction upd generalizing row with
  | nil => rfl
  | cons kv rest ih =>
    rw [List.foldl_cons, ih]
    by_cases h : kv.1 ∈ updatable
    · rw [if_pos h, dlookup_dset_ne]
      exact fun hkk => hk (hkk ▸ h)
    · rw [if_neg h]

/-- A fold of `setattr`s leaves keys that the updates map never mentions
unchanged (shared by the filtered and the unfiltered loop). -/
theorem foldl_set_absent (step : Row → String × Val → Row)
    (hstep : ∀ r kv, step r kv = dset r kv.1 kv.2 ∨ step r kv = r)
    (upd : Updates) (row : Row) (k : String) (hk : ∀ kv ∈ upd, kv.1 ≠ k) :
    dlookup (upd.foldl step row) k = dlookup row k := by
  induction upd generalizing row with
  | nil => rfl
  | cons kv rest ih =>
    rw [List.foldl_cons, ih _ (fun kv' h => hk kv' (List.mem_cons_of_mem _ h))]
    rcases hstep row kv with h | h
    · rw [h, dlookup_dset_ne]
      exact fun hkk => (hk kv (List.mem_cons_self _ _)) hkk.symm
    · rw [h]

/-- Update `d.update(upd)` applies every pair of an updates map with unique
keys. -/
theorem dupdate_applies (upd : Updates) (row : Row) (k : String) (v : Val)
    (hnd : (upd.map Prod.fst).Nodup) (hmem : (k, v) ∈ upd) :
    dlookup (dupdate row upd) k = some v := by
  induction upd generalizing row with
  | nil => cases hmem
  | cons kv rest ih =>
    rw [List.map_cons, List.nodup_cons] at hnd
    rcases List.mem_cons.mp hmem with h | h
    · subst h
      unfold dupdate
      rw [List.foldl_cons]
      have habs : ∀ kv' ∈ rest, kv'.1 ≠ k := by
        intro kv' hkv' heq
        exact hnd.1 (List.mem_map.mpr ⟨kv', hkv', heq⟩)
      rw [foldl_set_absent _ (fun r kv' => Or.inl rfl) rest _ k habs,
        dlookup_dset, if_pos rfl]
    · unfold dupdate
      rw [List.foldl_cons]
      exact ih _ hnd.2 h

/-- The filtered loop of `SQLStrategy.update_job` applies every
updatable pair of an updates map with unique keys. -/
theorem sql_apply_updates_applies (updatable : List String) (upd : Updates)
    (row : Row) (k : String) (v : Val) (hnd : (upd.map Prod.fst).Nodup)
    (hmem : (k, v) ∈ upd) (hupd : k ∈ updatable) :
    dlookup (sql_apply_updates updatable row upd) k = some v := by
  induction upd generalizing row with
  | nil => cases hmem
  | cons kv rest ih =>
    rw [List.map_cons, List.nodup_cons] at hnd
    rcases List.mem_cons.mp hmem with h | h
    · subst h
      unfold sql_apply_updates
      rw [List.foldl_cons]
      have habs : ∀ kv' ∈ rest, kv'.1 ≠ k := by
        intro kv' hkv' heq
        exact hnd.1 (List.mem_map.mpr ⟨kv', hkv', heq⟩)
      rw [foldl_set_absent _ ?step rest _ k habs, if_pos hupd,
        dlookup_dset, if_pos rfl]
      case step =>
        intro r kv'
        by_cases hh : kv'.1 ∈ updatable
        · exact Or.inl (if_pos hh)
        · exact Or.inr (if_neg hh)
    · unfold sql_apply_updates
      rw [List.foldl_cons]
      exact ih _ hnd.2 h

/-! ## Characterization of `DictOfDictStrategy.fetch_jobs` -/

/-- Writing the `id` entry does not change the status of a row. -/
theorem rowStatus_dset_id (row : Row) (v : Val) :
    rowStatus (dset row "id" v) = rowStatus row := by
  unfold rowStatus
  rw [dlookup_dset_ne row "id" "status" v (by decide)]

/-- Full characterization of `fetch_jobs` on a well-formed store: the
iteration succeeds, writes the `id` entry into every row, and yields
exactly the jobs whose status passes the flag-membership test. -/
theorem fetch_jobs_eq (status : Status) (store : Store) (hwf : wfStore store) :
    fetch_jobs status store
      = Except.ok (mutatedStore store, selectedJobs status store) := by
  induction store with
  | nil => rfl
  | cons kr rest ih =>
    obtain ⟨key, row⟩ := kr
    have hhead := hwf (key, row) (List.mem_cons_self _ _)
    obtain ⟨s, hs⟩ : ∃ s, rowStatus row = some s := by
      cases h : rowStatus row
      · rw [h] at hhead; cases hhead
      · exact ⟨_, rfl⟩
    have hrest := ih (fun kr h => hwf kr (List.mem_cons_of_mem _ h))
    unfold fetch_jobs
    rw [hrest]
    simp only [mkJob, rowStatus_dset_id, hs, mutatedStore, selectedJobs,
      List.map_cons, List.filterMap_cons]
    by_cases hc : Status.containsB s status <;> simp [hc]

/-! ## Characterization of `SQLStrategy.fetch_jobs` -/

/-- The status-string list computed by `SQLStrategy.fetch_jobs` contains
a base member's name exactly when that member is contained in the filter
flag. -/
theorem status_strings_contains (s : Status) (hs : s ∈ Status.baseMembers)
    (u : Status) :
    (status_strings u).contains (Status.strNameD s) = Status.containsB s u := by
  have hinj : ∀ t ∈ Status.baseMembers, ∀ t' ∈ Status.baseMembers,
      Status.strNameD t = Status.strNameD t' → t = t' := by decide
  have key : (status_strings u).contains (Status.strNameD s) = true
      ↔ Status.containsB s u = true := by
    unfold status_strings
    simp only [List.contains_iff_exists_mem_beq, beq_iff_eq, List.mem_map,
      List.mem_filter, decide_eq_true_eq]
    constructor
    · rintro ⟨a, ⟨t, ⟨ht, hcu⟩, rfl⟩, heq⟩
      rwa [hinj s hs t ht heq]
    · intro h
      exact ⟨Status.strNameD s, ⟨s, ⟨hs, h⟩, rfl⟩, rfl⟩
  cases hcb : Status.containsB s u
  · rw [hcb] at key
    simpa using key.not.mpr (by simp)
  · rw [hcb] at key
    simpa using key.mpr rfl

/-- On a table whose rows all carry base (single-bit) statuses, the
`WHERE status IN (...)` filter of `SQLStrategy.fetch_jobs` selects
exactly the rows whose status is contained in the filter flag. -/
theorem sql_fetch_jobs_eq (table : List SqlRow) (u : Status)
    (hbase : ∀ r ∈ table, r.status ∈ Status.baseMembers) :
    sql_fetch_jobs true table u
      = Except.ok (table.filter (fun r => Status.containsB r.status u)) := by
  unfold sql_fetch_jobs
  rw [if_neg (by simp)]
  congr 1
  apply List.filter_congr
  intro r hr
  exact status_strings_contains r.status (hbase r hr) u

/-- The `(id, status)` projection of the jobs yielded by `fetch_jobs`
equals the spec-side membership selection. -/
theorem selectedJobs_proj (status : Status) (store : Store) :
    (selectedJobs status store).map (fun j => (j.id, j.status))
      = spec_selected_ids status store := by
  induction store with
  | nil => rfl
  | cons kr rest ih =>
    unfold selectedJobs spec_selected_ids at *
    simp only [List.filterMap_cons]
    cases h : rowStatus kr.2 with
    | none => simpa [h] using ih
    | some s =>
      by_cases hc : Status.containsB s status <;> simp [h, hc, ih]

/-! ## Claim theorems -/

/-- Claim C9: For every base `StatusFlags` value `s` and every defined
union `u` (INCOMPLETE, COMPLETED, CURRENT, ALL), the membership test
`contains(s, u)` is true if and only if `s` is one of the base
components OR-ed into `u`; in particular
`contains(RUNNING, INCOMPLETE) == true`,
`contains(FINISHED, COMPLETED) == true`, and
`contains(NEW, COMPLETED) == false`. -/
theorem c9_contains_matches_components :
    ∀ s ∈ Status.baseMembers, ∀ uc ∈ status_union_components,
      (Status.containsB s uc.1 = true ↔ s ∈ uc.2) := by decide

/-- Witness for C9 at the three inputs named by the claim. -/
theorem c9_contains_matches_components_witness :
    Status.containsB Status.RUNNING Status.INCOMPLETE = true
    ∧ Status.containsB Status.FINISHED Status.COMPLETED = true
    ∧ Status.containsB Status.NEW Status.COMPLETED = false := by
  refine ⟨?_, ?_, ?_⟩
  · exact (c9_contains_matches_components Status.RUNNING (by decide)
      (Status.INCOMPLETE, [Status.NEW, Status.RUNNING]) (by decide)).mpr (by decide)
  · exact (c9_contains_matches_components Status.FINISHED (by decide)
      (Status.COMPLETED, [Status.FINISHED, Status.FAILED, Status.ARCHIVED])
      (by decide)).mpr (by decide)
  · have h := c9_contains_matches_components Status.NEW (by decide)
      (Status.COMPLETED, [Status.FINISHED, Status.FAILED, Status.ARCHIVED])
      (by decide)
    cases hb : Status.containsB Status.NEW Status.COMPLETED
    · rfl
    · exact absurd (h.mp hb) (by decide)

/-- Claim C8 counterexample: The claim states that the status-flag parse
operation succeeds only on the five base value names and that parsing a
union name such as "incomplete" or "all" fails with a typed error.  On
the code, `get_flag` resolves union names through `getattr` and returns
the union flag without error. -/
theorem c8_counterexample :
    Status.get_flag "incomplete" = Except.ok Status.INCOMPLETE
    ∧ Status.get_flag "all" = Except.ok Status.ALL
    ∧ Status.INCOMPLETE ∉ Status.baseMembers := by
  exact ⟨rfl, rfl, by decide⟩

/-- Claim C8, amended: `get_flag` succeeds (case-insensitively) on the
nine named members — the five base names **and** the four union names —
returning the corresponding flag; only a name matching no class member
fails, with a typed error. -/
theorem c8_parse_amended :
    (∀ p ∈ base_name_table, Status.get_flag p.1 = Except.ok p.2)
    ∧ (∀ p ∈ union_name_table, Status.get_flag p.1 = Except.ok p.2)
    ∧ (∀ name : String, Status.namedMember (Status.pyUpper name) = none →
        Status.get_flag name = Except.error "AttributeError") := by
  refine ⟨?_, ?_, ?_⟩
  · intro p hp
    fin_cases hp <;> rfl
  · intro p hp
    fin_cases hp <;> rfl
  · intro name h
    unfold Status.get_flag
    rw [h]

/-- Witness for C8 (amended) at concrete names. -/
theorem c8_parse_amended_witness :
    Status.get_flag "Running" = Except.ok Status.RUNNING
    ∧ Status.get_flag "All" = Except.ok Status.ALL
    ∧ Status.get_flag "queued" = Except.error "AttributeError" :=
  ⟨c8_parse_amended.1 ("Running", Status.RUNNING) (by decide),
   c8_parse_amended.2.1 ("All", Status.ALL) (by decide),
   c8_parse_amended.2.2 "queued" rfl⟩

/-- Claim C3: For every job status given to the dispatcher: `NEW` selects
and invokes the Start handler, `RUNNING` selects and invokes the
CheckStatus handler, and any status outside `{NEW, RUNNING}` (in
particular FINISHED, FAILED, ARCHIVED) raises a typed `ValueError`
instead of invoking any handler. -/
theorem c3_dispatch_by_status (startH checkH : DJob → PyResult (Nat × Updates))
    (job : DJob) :
    (job.status = Status.NEW →
      prepare job.status = Except.ok Role.start
      ∧ operator_execute startH checkH job = startH job)
    ∧ (job.status = Status.RUNNING →
      prepare job.status = Except.ok Role.checkStatus
      ∧ operator_execute startH checkH job = checkH job)
    ∧ (job.status ≠ Status.NEW → job.status ≠ Status.RUNNING →
      prepare job.status = Except.error "ValueError: Unknown job status type."
      ∧ operator_execute startH checkH job
          = PyResult.exc "ValueError: Unknown job status type.") := by
  refine ⟨?_, ?_, ?_⟩
  · intro h
    constructor <;> simp [prepare, operator_execute, h]
  · intro h
    have hne : Status.RUNNING ≠ Status.NEW := by decide
    constructor <;> simp [prepare, operator_execute, h, hne]
  · intro h1 h2
    constructor <;> simp [prepare, operator_execute, h1, h2]

/-- Witness for C3 at the five base statuses. -/
theorem c3_dispatch_by_status_witness :
    prepare Status.NEW = Except.ok Role.start
    ∧ prepare Status.RUNNING = Except.ok Role.checkStatus
    ∧ prepare Status.FINISHED = Except.error "ValueError: Unknown job status type."
    ∧ prepare Status.FAILED = Except.error "ValueError: Unknown job status type."
    ∧ prepare Status.ARCHIVED = Except.error "ValueError: Unknown job status type." := by
  have hok : ∀ _ : Unit, DJob → PyResult (Nat × Updates) := fun _ _ => PyResult.ok (0, [])
  refine ⟨((c3_dispatch_by_status (hok ()) (hok ()) ⟨"j", Status.NEW, []⟩).1 rfl).1,
    ((c3_dispatch_by_status (hok ()) (hok ()) ⟨"j", Status.RUNNING, []⟩).2.1 rfl).1,
    ((c3_dispatch_by_status (hok ()) (hok ()) ⟨"j", Status.FINISHED, []⟩).2.2
      (by decide) (by decide)).1,
    ((c3_dispatch_by_status (hok ()) (hok ()) ⟨"j", Status.FAILED, []⟩).2.2
      (by decide) (by decide)).1,
    ((c3_dispatch_by_status (hok ()) (hok ()) ⟨"j", Status.ARCHIVED, []⟩).2.2
      (by decide) (by decide)).1⟩

/-- Claim C6: For every job whose status is RUNNING but which carries no
scheduler-assigned identifier (a falsy `schedulerJobId`), the
CheckStatus handler immediately returns retcode 1 and an updates map
equal to `{status: FAILED}`, without querying the scheduler or
performing any transport. -/
theorem c6_checkstatus_missing_scheduler_id (schedId : Val) (env : CheckEnv)
    (h : truthy schedId = false) :
    check_status_execute schedId env
      = ⟨CSOutcome.ret 1 [("status", Val.vstatus Status.FAILED.val)], false, false⟩ := by
  simp [check_status_execute, h]

/-- Witness for C6: a RUNNING job with `schedulerJobId = None` against a
fully configured environment. -/
theorem c6_checkstatus_missing_scheduler_id_witness :
    check_status_execute Val.vnone
        ⟨true, true, (0, ["running"]), true, false, 0, []⟩
      = ⟨CSOutcome.ret 1 [("status", Val.vstatus Status.FAILED.val)], false, false⟩ :=
  c6_checkstatus_missing_scheduler_id Val.vnone
    ⟨true, true, (0, ["running"]), true, false, 0, []⟩ (by decide)

/-- Claim C7, code bug: The claim (and spec §4.5) requires the
scheduler-state mapping of the CheckStatus handler to be total over
every state the backend can report, with unmapped states surfaced as a
configuration error.  The handler maps only
`{"pending", "running", "failed", "COMPLETED"}`: on `"TIMEOUT"` (a state
named in the handler's own `slurm_job_states` table) and on
`"finished"` (the state reported by the repository's only check-status
backend, `noCheckStatus.py`), execution falls off the end of the
function and yields Python `None` — no outcome and no error. -/
theorem c7_unmapped_state_yields_none :
    (check_status_execute (Val.vstr "12345")
        ⟨true, true, (0, ["TIMEOUT"]), true, false, 0, []⟩).outcome
      = CSOutcome.noneReturn
    ∧ (check_status_execute (Val.vstr "12345")
        ⟨true, true, (0, [noCheckStatus_run.2]), true, false, 0, []⟩).outcome
      = CSOutcome.noneReturn
    ∧ (check_status_execute (Val.vstr "12345")
        ⟨true, true, (0, ["running"]), true, false, 0, []⟩).outcome
      = CSOutcome.ret 0 [("status", Val.vstatus Status.RUNNING.val)] :=
  ⟨rfl, rfl, rfl⟩

/-- Claim C2 counterexample: The claim asserts that both reference
backends apply only updatable keys and leave every other attribute
unchanged.  The in-memory backend's `update_job` runs
`self.data[job_obj.id].update(update_dict)`, which applies **every**
key: the non-updatable `results` attribute is overwritten. -/
theorem c2_counterexample :
    "results" ∉ plain_updatable_attrs
    ∧ dict_update_job c2_store "1" c2_updates
        = Except.ok [("1", [("status", Val.vstatus Status.RUNNING.val),
            ("results", Val.vstr "clobbered")])]
    ∧ dlookup c2_row "results" = some (Val.vstr "old") := by
  exact ⟨by decide, rfl, rfl⟩

/-- Claim C2, amended: The relational backend's `update_job` applies
exactly the updatable keys: keys outside the job kind's
updatable-attribute set are ignored without error (their attributes are
unchanged) while updatable keys in the same call are applied.  The
in-memory backend, by contrast, applies every key of the updates map. -/
theorem c2_update_filtering_amended (updatable : List String) (row : Row)
    (upd : Updates) :
    sql_update_job true updatable row upd
        = Except.ok (sql_apply_updates updatable row upd)
    ∧ (∀ k, k ∉ updatable →
        dlookup (sql_apply_updates updatable row upd) k = dlookup row k)
    ∧ ((upd.map Prod.fst).Nodup → ∀ k v, (k, v) ∈ upd → k ∈ updatable →
        dlookup (sql_apply_updates updatable row upd) k = some v)
    ∧ ((upd.map Prod.fst).Nodup → ∀ k v, (k, v) ∈ upd →
        dlookup (dupdate row upd) k = some v) := by
  refine ⟨?_, ?_, ?_, ?_⟩
  · cases upd <;> rfl
  · intro k hk
    exact foldl_filtered_frame updatable upd row k hk
  · intro hnd k v hmem hupd
    exact sql_apply_updates_applies updatable upd row k v hnd hmem hupd
  · intro hnd k v hmem
    exact dupdate_applies upd row k v hnd hmem

/-- Witness for C2 (amended): the scenario updates map against the
`job_plain` updatable set — `status` is applied, `results` is left
unchanged by the relational backend, while the in-memory backend
overwrites `results`. -/
theorem c2_update_filtering_amended_witness :
    sql_update_job true plain_updatable_attrs c2_row c2_updates
        = Except.ok (sql_apply_updates plain_updatable_attrs c2_row c2_updates)
    ∧ dlookup (sql_apply_updates plain_updatable_attrs c2_row c2_updates) "results"
        = dlookup c2_row "results"
    ∧ dlookup (sql_apply_updates plain_updatable_attrs c2_row c2_updates) "status"
        = some (Val.vstatus Status.RUNNING.val)
    ∧ dlookup (dupdate c2_row c2_updates) "results" = some (Val.vstr "clobbered") := by
  have h := c2_update_filtering_amended plain_updatable_attrs c2_row c2_updates
  exact ⟨h.1, h.2.1 "results" (by decide),
    h.2.2.1 (by decide) "status" (Val.vstatus Status.RUNNING.val) (by decide) (by decide),
    h.2.2.2 (by decide) "results" (Val.vstr "clobbered") (by decide)⟩

/-- Claim C4: For every store state (whose rows carry statuses, per the
data-model invariant) and every status filter, `fetch_jobs` returns
exactly those stored jobs whose current status is a member of the
filter union — on both backends: the dict-of-dicts store yields the
membership-selected jobs, and the relational store's
`WHERE status IN (...)` keeps exactly the membership-selected rows. -/
theorem c4_fetch_exactly_matching :
    (∀ (status : Status) (store : Store), wfStore store →
      fetch_jobs status store
          = Except.ok (mutatedStore store, selectedJobs status store)
      ∧ (selectedJobs status store).map (fun j => (j.id, j.status))
          = spec_selected_ids status store)
    ∧ (∀ (table : List SqlRow) (u : Status),
        (∀ r ∈ table, r.status ∈ Status.baseMembers) →
        sql_fetch_jobs true table u
          = Except.ok (table.filter (fun r => Status.containsB r.status u))) := by
  refine ⟨fun status store hwf => ⟨fetch_jobs_eq status store hwf, selectedJobs_proj status store⟩,
    fun table u hbase => sql_fetch_jobs_eq table u hbase⟩

/-- Witness for C4: on stores seeded with one job of each of the five
base statuses, `fetchJobs(INCOMPLETE)` yields exactly the NEW and
RUNNING jobs on both backends. -/
theorem c4_fetch_exactly_matching_witness :
    fetch_jobs Status.INCOMPLETE five_status_store
        = Except.ok (mutatedStore five_status_store,
            selectedJobs Status.INCOMPLETE five_status_store)
    ∧ (selectedJobs Status.INCOMPLETE five_status_store).map (fun j => (j.id, j.status))
        = [("1", Status.NEW), ("2", Status.RUNNING)]
    ∧ sql_fetch_jobs true sql_five_table Status.INCOMPLETE
        = Except.ok [⟨1, Status.NEW, []⟩, ⟨2, Status.RUNNING, []⟩] := by
  have h := c4_fetch_exactly_matching.1 Status.INCOMPLETE five_status_store (by decide)
  refine ⟨h.1, ?_, ?_⟩
  · rw [h.2]; decide
  · rw [c4_fetch_exactly_matching.2 sql_five_table Status.INCOMPLETE (by decide)]
    rfl

/-- Claim C10: For the in-memory store, `fetch_jobs` is not read-only:
a full iteration writes an `"id"` entry, set to the job's primary key,
into every stored row's attribute map — whether or not the row matches
the status filter — while leaving every other stored attribute of every
row unchanged. -/
theorem c10_fetch_writes_id (status : Status) (store : Store) (hwf : wfStore store) :
    fetch_jobs status store
        = Except.ok (store.map (fun kr => (kr.1, dset kr.2 "id" (Val.vstr kr.1))),
            selectedJobs status store)
    ∧ ∀ kr ∈ store,
        dlookup (dset kr.2 "id" (Val.vstr kr.1)) "id" = some (Val.vstr kr.1)
        ∧ ∀ key : String, key ≠ "id" →
            dlookup (dset kr.2 "id" (Val.vstr kr.1)) key = dlookup kr.2 key := by
  refine ⟨fetch_jobs_eq status store hwf, fun kr _ => ⟨?_, fun key hkey => ?_⟩⟩
  · rw [dlookup_dset, if_pos rfl]
  · exact dlookup_dset_ne _ _ _ _ hkey

/-- Witness for C10: the seeded `load_data` store under the INCOMPLETE
filter — job `"1"` (FINISHED) does not match the filter but still
receives the `id` entry, and its `status` attribute is unchanged. -/
theorem c10_fetch_writes_id_witness :
    fetch_jobs Status.INCOMPLETE load_data
        = Except.ok (load_data.map (fun kr => (kr.1, dset kr.2 "id" (Val.vstr kr.1))),
            selectedJobs Status.INCOMPLETE load_data)
    ∧ dlookup (dset [("status", Val.vstatus Status.FINISHED.val)] "id" (Val.vstr "1")) "id"
        = some (Val.vstr "1")
    ∧ dlookup (dset [("status", Val.vstatus Status.FINISHED.val)] "id" (Val.vstr "1")) "status"
        = some (Val.vstatus Status.FINISHED.val) := by
  have h := c10_fetch_writes_id Status.INCOMPLETE load_data (by decide)
  have hm := h.2 ("1", [("status", Val.vstatus Status.FINISHED.val)]) (by decide)
  exact ⟨h.1, hm.1, by rw [hm.2 "status" (by decide)]; rfl⟩

/-- Claim C5 counterexample: The claim asserts that a transfer with any
missing file moves no files at all.  The local-move transport processes
files in order and aborts only on reaching the first missing file:
with `/src/a.txt` present and `b.txt` missing, the call returns retcode
1 and a typed error, but `a.txt` has already been renamed into `/dst`
(the file system changed). -/
theorem c5_counterexample :
    transport_run ["", "src"] ["", "dst"] [["a.txt"], ["b.txt"]] [] c5_world
      = ((1, Except.error ["", "src", "b.txt"]), [["", "dst", "a.txt"]])
    ∧ [["", "dst", "a.txt"]] ≠ c5_world := by
  exact ⟨rfl, by decide⟩

/-- Claim C5, amended: The local-move transport fails the whole call
with retcode 1 and a typed error upon reaching the first listed file
that does not exist under the source; files listed before it have
already been moved, files from it on are not.  In particular, when the
**first** listed file is missing — e.g. the single-file call
`transfer(["a.txt"], "/src", "/dst")` with `/src/a.txt` absent — the
call fails and no files are moved (the file system is unchanged). -/
theorem c5_transport_first_missing (fr t f : FPath) (rest : List FPath)
    (world : List FPath) (h : resolveFile fr f ∉ world) :
    transport_run fr t (f :: rest) [] world
      = ((1, Except.error (resolveFile fr f)), world) := by
  simp [transport_run, h]

/-- Witness for C5 (amended): the spec's own scenario,
`transfer(["a.txt"], "/src", "/dst")` with `/src/a.txt` absent. -/
theorem c5_transport_first_missing_witness :
    transport_run ["", "src"] ["", "dst"] [["a.txt"]] [] []
      = ((1, Except.error ["", "src", "a.txt"]), []) :=
  c5_transport_first_missing ["", "src"] ["", "dst"] ["a.txt"] [] [] (by decide)

/-- Claim C1 counterexample: The claim asserts that when Start fails for
the first of two NEW jobs, the controller loop still processes the
second job, which ends RUNNING.  On the code there is no exception
handling in the loop: when job `"1"`'s submission fails in the
repository's own failure convention (`(retcode, (errorObject,))`, a
one-element result), `Start.execute` hits `if schedulerJobId:` with the
variable never assigned, the `UnboundLocalError` propagates, the run
aborts, and job `"2"` is left `NEW`, not `RUNNING`. -/
theorem c1_counterexample :
    (controllerRun c1_fail_handler two_new_store).2
        = some "UnboundLocalError: schedulerJobId"
    ∧ storeStatus (controllerRun c1_fail_handler two_new_store).1 "2"
        = some Status.NEW
    ∧ storeStatus (controllerRun c1_fail_handler two_new_store).1 "2"
        ≠ some Status.RUNNING := by
  exact ⟨rfl, rfl, by decide⟩

/-- Claim C1, amended: A handler failure reported through the return
contract — `Start.execute` returning a non-zero retcode with an updates
map (which requires the failed submission's result to still carry at
least two entries) — does not stop the controller loop: the failed
job's updates (`status: FAILED`) are written and every remaining
fetched job is processed, so in the two-NEW-jobs store the second job's
status is RUNNING after one run.  (A handler failure that raises — a
transport failure, or a submission failure whose result carries no
scheduler id — aborts the run instead, as shown by the
counterexample.) -/
theorem c1_loop_isolation_amended (e1 e2 sid : String) (he : e1 ≠ "")
    (hsid : sid ≠ "") (checkH : DJob → PyResult (Nat × Updates)) :
    (controllerRun (c1_mixed_handler e1 e2 sid checkH) two_new_store).2 = none
    ∧ storeStatus (controllerRun (c1_mixed_handler e1 e2 sid checkH) two_new_store).1 "1"
        = some Status.FAILED
    ∧ storeStatus (controllerRun (c1_mixed_handler e1 e2 sid checkH) two_new_store).1 "2"
        = some Status.RUNNING := by
  have hf : fetch_jobs Status.INCOMPLETE two_new_store
      = Except.ok (mutatedStore two_new_store, selectedJobs Status.INCOMPLETE two_new_store) :=
    fetch_jobs_eq _ _ (by decide)
  have hm : mutatedStore two_new_store
      = [("1", [("status", Val.vstatus Status.NEW.val), ("id", Val.vstr "1")]),
         ("2", [("status", Val.vstatus Status.NEW.val), ("id", Val.vstr "2")])] := by decide
  have hsel : selectedJobs Status.INCOMPLETE two_new_store
      = [⟨"1", Status.NEW, [("status", Val.vstatus Status.NEW.val), ("id", Val.vstr "1")]⟩,
         ⟨"2", Status.NEW, [("status", Val.vstatus Status.NEW.val), ("id", Val.vstr "2")]⟩] := by
    decide
  rw [hm, hsel] at hf
  have hrun : controllerRun (c1_mixed_handler e1 e2 sid checkH) two_new_store
      = controllerLoop (c1_mixed_handler e1 e2 sid checkH)
          [⟨"1", Status.NEW, [("status", Val.vstatus Status.NEW.val), ("id", Val.vstr "1")]⟩,
           ⟨"2", Status.NEW, [("status", Val.vstatus Status.NEW.val), ("id", Val.vstr "2")]⟩]
          [("1", [("status", Val.vstatus Status.NEW.val), ("id", Val.vstr "1")]),
           ("2", [("status", Val.vstatus Status.NEW.val), ("id", Val.vstr "2")])] := by
    unfold controllerRun
    rw [hf]
  rw [hrun]
  refine ⟨?_, ?_, ?_⟩ <;>
    simp [controllerLoop, c1_mixed_handler, operator_execute, prepare,
      start_execute, dict_update_job, he, hsid, storeStatus, rowStatus,
      dlookup, dset, dupdate]

/-- Witness for C1 (amended) at concrete collaborator outcomes. -/
theorem c1_loop_isolation_amended_witness :
    (controllerRun (c1_mixed_handler "SubprocessError" "" "4242"
        (fun _ => PyResult.ok (0, []))) two_new_store).2 = none
    ∧ storeStatus (controllerRun (c1_mixed_handler "SubprocessError" "" "4242"
        (fun _ => PyResult.ok (0, []))) two_new_store).1 "1" = some Status.FAILED
    ∧ storeStatus (controllerRun (c1_mixed_handler "SubprocessError" "" "4242"
        (fun _ => PyResult.ok (0, []))) two_new_store).1 "2" = some Status.RUNNING :=
  c1_loop_isolation_amended "SubprocessError" "" "4242" (by decide) (by decide)
    (fun _ => PyResult.ok (0, []))
